import Mathlib

namespace RoleBasedAccess

/-
Verification of src/advanced-ts-for-teams/slides/experiments/03-roleBasedAccess.ts

The source defines a frozen object `userAccessModel` mapping roles to
readonly lists of actions, derives the closed types `Role` and `Action`
from it, and defines
  canUserAccess = (role, action) => {
    const possibleActions = userAccessModel[role];
    return possibleActions.includes(action);
  }
We embed the closed string-literal unions as inductive types (keeping the
source spellings, including hyphens), the table as a function from Role
to List Action, and the membership test via List.contains.
-/

/-- Role is the closed set of keys of userAccessModel: user, admin, anonymous. -/
inductive Role where
  | user
  | admin
  | anonymous
deriving DecidableEq, Fintype

/-- Action is the closed set of all members of all rows of userAccessModel. -/
inductive Action where
  | create
  | «update-self»
  | «update-any»
  | delete
  | view
deriving DecidableEq, Fintype

/-- The frozen permission table from the source, row for row. -/
def userAccessModel : Role → List Action
  | .user => [.«update-self», .view]
  | .admin => [.create, .«update-self», .«update-any», .delete, .view]
  | .anonymous => [.view]

/-- Embedding of canUserAccess: look up the row for the role, then test
membership of the action in that row. -/
def canUserAccess (role : Role) (action : Action) : Bool :=
  let possibleActions := userAccessModel role
  possibleActions.contains action

/-- The full list of roles, used to state closedness of the Role set. -/
def roleSet : List Role := [.user, .admin, .anonymous]

/-- The full list of actions, used to state closedness of the Action set. -/
def actionSet : List Action :=
  [.create, .«update-self», .«update-any», .delete, .view]

/-- Modelled from the spec (section 3): the permission table written as
literal set-membership rows, independently of the source definition, to
compare canUserAccess against. -/
def permissionTableSpec : Role → List Action
  | .user => [.«update-self», .view]
  | .admin => [.create, .«update-self», .«update-any», .delete, .view]
  | .anonymous => [.view]

/-- Runtime-faithful variant of the lookup: the table as an association
list, with a fallible lookup (the JS indexing step can in principle miss),
so an unreachable error branch is visible as Option.none. -/
def userAccessModelAList : List (Role × List Action) :=
  [(.user, [.«update-self», .view]),
   (.admin, [.create, .«update-self», .«update-any», .delete, .view]),
   (.anonymous, [.view])]

/-- canUserAccess with the lookup made fallible: none would mean the role
was absent from the table. -/
def canUserAccessChecked (role : Role) (action : Action) : Option Bool :=
  (userAccessModelAList.lookup role).map fun possibleActions =>
    possibleActions.contains action

/-- State-passing variant: the table is threaded through the call, so that
the statement that a call leaves the table unchanged is expressible. -/
def canUserAccessOn (tbl : Role → List Action) (role : Role) (action : Action) :
    Bool × (Role → List Action) :=
  let possibleActions := tbl role
  (possibleActions.contains action, tbl)

/-- C1: for every role in the closed Role set and every action in the closed
Action set, canUserAccess returns true exactly when the action is a member
of that role row of the permission table of section 3 of the spec. -/
theorem canUserAccess_iff_table_membership :
    ∀ (r : Role) (a : Action),
      canUserAccess r a = true ↔ a ∈ permissionTableSpec r := by
  decide

/-- C2: canUserAccess is deterministic: two calls given equal roles and
equal actions return the same result; the result depends on nothing else. -/
theorem canUserAccess_deterministic :
    ∀ (r₁ a₁ r₂ a₂ : _), r₁ = r₂ → a₁ = a₂ →
      canUserAccess r₁ a₁ = canUserAccess r₂ a₂ := by
  intro r₁ a₁ r₂ a₂ hr ha
  rw [hr, ha]

/-- C2 witness: the determinism theorem applied at a concrete pair of
equal inputs. -/
theorem canUserAccess_deterministic_witness :
    canUserAccess .admin .delete = canUserAccess .admin .delete :=
  canUserAccess_deterministic Role.admin Action.delete Role.admin Action.delete
    rfl rfl

/-- C3: on the whole constrained domain the lookup succeeds: the fallible
variant never hits its error branch and always returns some boolean, the
one canUserAccess computes. -/
theorem canUserAccess_total :
    ∀ (r : Role) (a : Action),
      canUserAccessChecked r a = some (canUserAccess r a) := by
  decide

/-- C4: inputs outside the closed Role and Action sets are unrepresentable:
there is no role or action value outside the enumerated sets, so the
invalid-input error branch is precluded by construction, as the claim
provides for statically-typed targets such as this source. -/
theorem canUserAccess_no_invalid_input :
    ¬ ∃ (r : Role) (a : Action), r ∉ roleSet ∨ a ∉ actionSet := by
  decide

/-- C5: every row of the permission table is duplicate-free, and a call to
the state-passing form of canUserAccess returns the table it was given
unchanged while computing the same result. -/
theorem userAccessModel_nodup_and_unmutated :
    (∀ r : Role, (userAccessModel r).Nodup) ∧
    (∀ (r : Role) (a : Action),
      canUserAccessOn userAccessModel r a = (canUserAccess r a, userAccessModel)) := by
  exact ⟨by decide, fun r a => rfl⟩

/-- C6: the Role set is exactly the three-element closed set and the Action
set exactly the five-element closed set: every value of either type occurs
in the corresponding enumeration list, each list is duplicate-free, and
canUserAccess accepts every member, returning a boolean. -/
theorem role_action_sets_closed :
    (∀ r : Role, r ∈ roleSet) ∧ (∀ a : Action, a ∈ actionSet) ∧
    roleSet.Nodup ∧ actionSet.Nodup ∧
    (∀ r ∈ roleSet, ∀ a ∈ actionSet,
      canUserAccess r a = true ∨ canUserAccess r a = false) := by
  decide

/-- C6 witness: the closedness theorem applied at the concrete pair of the
user role and the view action, with both membership hypotheses discharged. -/
theorem role_action_sets_closed_witness :
    canUserAccess .user .view = true ∨ canUserAccess .user .view = false :=
  role_action_sets_closed.2.2.2.2 .user (by decide) .view (by decide)

/-- C7: canUserAccess on admin and delete returns true. -/
theorem canUserAccess_admin_delete : canUserAccess .admin .delete = true := by
  decide

/-- C8: canUserAccess on user and delete returns false. -/
theorem canUserAccess_user_delete : canUserAccess .user .delete = false := by
  decide

/-- C9: the admin role is permitted every action of the closed Action set,
so every other role has a subset of the admin permissions. -/
theorem admin_permits_every_action :
    (∀ a : Action, canUserAccess .admin a = true) ∧
    (∀ (r : Role) (a : Action),
      canUserAccess r a = true → canUserAccess .admin a = true) := by
  decide

/-- C9 witness: the subset half of the admin theorem applied to the user
role and the view action, discharging the permission hypothesis there. -/
theorem admin_permits_every_action_witness :
    canUserAccess .admin .view = true :=
  admin_permits_every_action.2 .user .view (by decide)

/-- C10: every role of the closed Role set, including anonymous, is
permitted the view action. -/
theorem every_role_permits_view :
    ∀ r : Role, canUserAccess r .view = true := by
  decide

end RoleBasedAccess
